import Mathlib

/-!
# Bookshelf startup configuration (getting-started/bookshelf/config.go)

A shallow embedding of the package initialiser `init` and of its helpers
`configureCloudSQL`, `configureDatastoreDB`, `configureStorage`,
`configurePubsub` and `configureOAuthClient`.

* The process environment is a function from variable names to optional values.
* The cloud SDK calls and the constructors that live in other files of the
  package are fields of one record `SDK`; each is a function of its arguments.
* A function that performs calls returns its Go result together with the list
  of calls it made, in program order (`Event`).
* A Go result pair `(T, error)` is a Lean pair whose components are options;
  `none` is the Go `nil`.
* `log.Fatal` ends the run: `init` yields `Outcome.fatal`.
-/

namespace Bookshelf

/-! ## Values -/

/-- Go error value. A nil error is `none` in `Option GoError`. -/
structure GoError where
  msg : String
deriving DecidableEq, Repr

namespace errors

/-- Go `errors.New`: an error carrying the given text. -/
def New (text : String) : GoError := ⟨text⟩

end errors

/-- Process environment: the value bound to a variable name, if any. -/
abbrev Environ := String → Option String

namespace os

/-- Go `os.Getenv`: the value of the variable, empty when it is not present. -/
def Getenv (env : Environ) (key : String) : String := (env key).getD ""

end os

/-- Conversion `[]byte(s)`: the UTF-8 bytes of a string. -/
def bytes (s : String) : List Nat := s.toUTF8.toList.map UInt8.toNat

/-- Struct `cloudSQLConfig` (config.go, lines 191-193). -/
structure cloudSQLConfig where
  Username : String := ""
  Password : String := ""
  Instance : String := ""
deriving DecidableEq, Repr

/-- Modelled from the spec: struct `MySQLConfig`, whose declaration is in
another file of the package. The fields are the ones the composite literals of
`configureCloudSQL` set (user name, password, host, port, unix socket), and a
field that a literal leaves out has its zero value. -/
structure MySQLConfig where
  Username : String := ""
  Password : String := ""
  Host : String := ""
  Port : Int := 0
  UnixSocket : String := ""
deriving DecidableEq, Repr

/-- Modelled from the spec: interface `BookDatabase` and its implementations,
declared in other files of the package. A value is nil or has one of the four
backends as dynamic type (in-memory, MySQL, Mongo, Datastore); config.go only
inspects whether the dynamic type is `*memoryDB`. -/
inductive BookDatabase where
  | nil
  | memoryDB (addr : Nat)
  | mysqlDB (addr : Nat)
  | mongoDB (addr : Nat)
  | datastoreDB (addr : Nat)
deriving DecidableEq, Repr

/-- Type assertion `_, ok := DB.(*memoryDB)`: the value of `ok`. -/
def BookDatabase.isMemoryDB : BookDatabase → Bool
  | .memoryDB _ => true
  | _ => false

/-- Handle `*datastore.Client`. -/
structure DatastoreClient where
  addr : Nat
deriving DecidableEq, Repr

/-- Handle `*storage.Client`. -/
structure StorageClient where
  addr : Nat
deriving DecidableEq, Repr

/-- Handle `*storage.BucketHandle`: the client it came from and the bucket name. -/
structure BucketHandle where
  client : StorageClient
  name : String
deriving DecidableEq, Repr

/-- Method `(*storage.Client).Bucket`: a handle bound to the given name. -/
def StorageClient.Bucket (c : StorageClient) (name : String) : BucketHandle :=
  { client := c, name := name }

/-- Handle `*pubsub.Client`. -/
structure PubsubClient where
  addr : Nat
deriving DecidableEq, Repr

/-- Struct `oauth2.Endpoint`. -/
structure Endpoint where
  AuthURL : String := ""
  TokenURL : String := ""
deriving DecidableEq, Repr

/-- Struct `oauth2.Config`. -/
structure OAuth2Config where
  ClientID : String := ""
  ClientSecret : String := ""
  Endpoint : Endpoint := {}
  RedirectURL : String := ""
  Scopes : List String := []
deriving DecidableEq, Repr

/-- Struct `sessions.Options`; a field left out of a literal is zero. -/
structure SessionOptions where
  Path : String := ""
  Domain : String := ""
  MaxAge : Int := 0
  Secure : Bool := false
  HttpOnly : Bool := false
deriving DecidableEq, Repr

/-- Struct `sessions.CookieStore`: the key pairs it was built from and its
`Options` pointer. -/
structure CookieStore where
  keyPairs : List (List Nat)
  Options : Option SessionOptions
deriving DecidableEq, Repr

/-! ## Collaborators -/

/-- Result of a cloud SDK call: the SDK returns either a usable value or a
non-nil error. -/
abbrev SDKResult (α : Type) := Except GoError α

/-- Everything config.go calls that is defined outside it. -/
structure SDK where
  /-- The package function newMySQLDB, returning a Go pair. -/
  newMySQLDB : MySQLConfig → BookDatabase × Option GoError
  /-- The package function newDatastoreDB, returning a Go pair. -/
  newDatastoreDB : DatastoreClient → BookDatabase × Option GoError
  /-- Call datastore.NewClient(ctx, projectID). -/
  datastoreNewClient : String → SDKResult DatastoreClient
  /-- Call storage.NewClient(ctx, option.WithCredentialsFile(file)). -/
  storageNewClient : String → SDKResult StorageClient
  /-- Call pubsub.NewClient(ctx, projectID, option.WithCredentialsFile(file)). -/
  pubsubNewClient : String → String → SDKResult PubsubClient
  /-- Call client.Topic(id).Exists(ctx). -/
  topicExists : PubsubClient → String → SDKResult Bool
  /-- Call client.CreateTopic(ctx, id); the topic handle is discarded. -/
  createTopic : PubsubClient → String → SDKResult Unit
  /-- Call sessions.NewCookieStore(keyPairs...). -/
  NewCookieStore : List (List Nat) → CookieStore
  /-- The variable google.Endpoint. -/
  googleEndpoint : Endpoint

/-- One call (or global assignment) performed by the code, with its arguments. -/
inductive Event where
  | printf (s : String)
  | configureCloudSQL (config : cloudSQLConfig)
  | newMySQLDB (config : MySQLConfig)
  | newMemoryDB
  | newMongoDB (addr : String)
  | configureDatastoreDB (projectID : String)
  | datastoreNewClient (projectID : String)
  | newDatastoreDB (client : DatastoreClient)
  | assignDB (db : BookDatabase)
  | configureStorage (bucketID : String)
  | storageNewClient (credentialsFile : String)
  | configureOAuthClient (clientID clientSecret : String)
  | NewCookieStore (keyPairs : List (List Nat))
  | configurePubsub (projectID : String)
  | pubsubNewClient (projectID credentialsFile : String)
  | topicExists (client : PubsubClient) (id : String)
  | createTopic (client : PubsubClient) (id : String)
  | logFatal (err : GoError)
deriving DecidableEq, Repr

/-- A call `client.Topic(id).Exists(ctx)`. -/
def Event.isTopicExists : Event → Bool
  | .topicExists _ _ => true
  | _ => false

/-- A call `client.CreateTopic(ctx, id)`. -/
def Event.isCreateTopic : Event → Bool
  | .createTopic _ _ => true
  | _ => false

/-- A call `newMySQLDB(config)`. -/
def Event.isNewMySQLDB : Event → Bool
  | .newMySQLDB _ => true
  | _ => false

/-- An assignment to the global `DB`. -/
def Event.isAssignDB : Event → Bool
  | .assignDB _ => true
  | _ => false

/-- A call that selects or constructs a database backend. -/
def Event.isBackendConstruction : Event → Bool
  | .configureCloudSQL _ => true
  | .newMySQLDB _ => true
  | .newMemoryDB => true
  | .newMongoDB _ => true
  | .configureDatastoreDB _ => true
  | .datastoreNewClient _ => true
  | .newDatastoreDB _ => true
  | _ => false

/-- A call belonging to the storage, OAuth, session or Pub/Sub step. -/
def Event.isLaterStep : Event → Bool
  | .configureStorage _ => true
  | .storageNewClient _ => true
  | .configureOAuthClient _ _ => true
  | .NewCookieStore _ => true
  | .configurePubsub _ => true
  | .pubsubNewClient _ _ => true
  | .topicExists _ _ => true
  | .createTopic _ _ => true
  | _ => false

/-- Constant `PubsubTopicID` (config.go, line 53). -/
def PubsubTopicID : String := "fill-book-details"

/-- The credentials file both `configureStorage` and `configurePubsub` pass to
`option.WithCredentialsFile`. -/
def credentialsFile : String :=
  "/usr/local/google/home/ruihuang/Downloads/ruihuang-bookshelf01-4a4ea6668b1f.json"

/-! ## Helpers of config.go -/

/-- Function `configureDatastoreDB` (config.go, lines 135-142). -/
def configureDatastoreDB (sdk : SDK) (projectID : String) :
    (BookDatabase × Option GoError) × List Event :=
  match sdk.datastoreNewClient projectID with
  | .error err => ((.nil, some err), [.datastoreNewClient projectID])
  | .ok client =>
    (sdk.newDatastoreDB client, [.datastoreNewClient projectID, .newDatastoreDB client])

/-- Function `configureStorage` (config.go, lines 144-151). -/
def configureStorage (sdk : SDK) (bucketID : String) :
    (Option BucketHandle × Option GoError) × List Event :=
  match sdk.storageNewClient credentialsFile with
  | .error err => ((none, some err), [.storageNewClient credentialsFile])
  | .ok client => ((some (client.Bucket bucketID), none), [.storageNewClient credentialsFile])

/-- Function `configurePubsub` (config.go, lines 153-175). The global `DB` it
reads is the first argument. -/
def configurePubsub (DB : BookDatabase) (sdk : SDK) (projectID : String) :
    (Option PubsubClient × Option GoError) × List Event :=
  if DB.isMemoryDB then
    ((none, some (errors.New ("Pub/Sub worker doesn't work with the in-memory DB " ++
      "(worker does not share its memory as the main app). Configure another " ++
      "database in bookshelf/config.go first (e.g. MySQL, Cloud Datastore, etc)"))), [])
  else
    match sdk.pubsubNewClient projectID credentialsFile with
    | .error err => ((none, some err), [.pubsubNewClient projectID credentialsFile])
    | .ok client =>
      -- Create the topic if it doesn't exist.
      match sdk.topicExists client PubsubTopicID with
      | .error err =>
        ((none, some err),
          [.pubsubNewClient projectID credentialsFile, .topicExists client PubsubTopicID])
      | .ok false =>
        match sdk.createTopic client PubsubTopicID with
        | .error err =>
          ((none, some err),
            [.pubsubNewClient projectID credentialsFile, .topicExists client PubsubTopicID,
              .createTopic client PubsubTopicID])
        | .ok _ =>
          ((some client, none),
            [.pubsubNewClient projectID credentialsFile, .topicExists client PubsubTopicID,
              .createTopic client PubsubTopicID])
      | .ok true =>
        ((some client, none),
          [.pubsubNewClient projectID credentialsFile, .topicExists client PubsubTopicID])

/-- Function `configureOAuthClient` (config.go, lines 177-189). -/
def configureOAuthClient (env : Environ) (googleEndpoint : Endpoint)
    (clientID clientSecret : String) : OAuth2Config :=
  let redirectURL := os.Getenv env "OAUTH2_CALLBACK"
  let redirectURL :=
    if redirectURL = "" then "http://localhost:8080/oauth2callback" else redirectURL
  { ClientID := clientID
    ClientSecret := clientSecret
    RedirectURL := redirectURL
    Scopes := ["email", "profile"]
    Endpoint := googleEndpoint }

/-- Function `configureCloudSQL` (config.go, lines 195-214). -/
def configureCloudSQL (env : Environ) (sdk : SDK) (config : cloudSQLConfig) :
    (BookDatabase × Option GoError) × List Event :=
  if os.Getenv env "GAE_INSTANCE" ≠ "" then
    -- Running in production.
    let c : MySQLConfig :=
      { Username := config.Username
        Password := config.Password
        UnixSocket := "/cloudsql/" ++ config.Instance }
    (sdk.newMySQLDB c,
      [.printf "\nconfigureCloudSQL! inside\n", .printf "\nconfigureCloudSQL! GAE_INSTANCE\n",
        .newMySQLDB c])
  else
    -- Running locally.
    let c : MySQLConfig :=
      { Username := config.Username
        Password := config.Password
        Host := "localhost"
        Port := 3306 }
    (sdk.newMySQLDB c, [.printf "\nconfigureCloudSQL! inside\n", .newMySQLDB c])

/-! ## The initialiser -/

/-- Package-level variables of config.go (lines 37-51), nil or empty at start. -/
structure Globals where
  DB : BookDatabase := .nil
  OAuthConfig : Option OAuth2Config := none
  StorageBucket : Option BucketHandle := none
  StorageBucketName : String := ""
  StorageBucketName1 : String := ""
  SessionStore : Option CookieStore := none
  PubsubClient : Option PubsubClient := none
deriving DecidableEq, Repr

/-- How a run of `init` ends: it returns, or `log.Fatal` exits the process. -/
inductive Outcome where
  | returned
  | fatal (err : GoError)
deriving DecidableEq, Repr

/-- A run of `init`: the globals when it ends, the calls made, and the outcome. -/
structure Run where
  globals : Globals
  trace : List Event
  outcome : Outcome
deriving DecidableEq, Repr

/-- The literal `cloudSQLConfig{...}` that `init` passes (config.go, lines 66-73). -/
def cloudSQLLiteral : cloudSQLConfig :=
  { Username := "root"
    Password := "123"
    Instance := "ruihuang-bookshelf01:us-east4:library" }

/-- Function `init` (config.go, lines 55-133). -/
def init (env : Environ) (sdk : SDK) : Run :=
  let g : Globals := {}
  let t : List Event := [.printf "\nconfigureCloudSQL!\n"]
  -- DB, err = configureCloudSQL(...)
  let r := configureCloudSQL env sdk cloudSQLLiteral
  let g := { g with DB := r.1.1 }
  let err := r.1.2
  let t := t ++ [.configureCloudSQL cloudSQLLiteral] ++ r.2 ++ [.assignDB r.1.1]
  match err with
  | some e => { globals := g, trace := t ++ [.logFatal e], outcome := .fatal e }
  | none =>
    -- StorageBucket, err = configureStorage(StorageBucketName)
    let g := { g with StorageBucketName := "ruihuang-bookshelf-bucket01" }
    let s := configureStorage sdk g.StorageBucketName
    let g := { g with StorageBucket := s.1.1 }
    -- this value of err is not read: the next assignment to err replaces it
    let err := s.1.2
    let t := t ++ [.configureStorage g.StorageBucketName] ++ s.2
    -- OAuthConfig = configureOAuthClient(...)
    let g := { g with OAuthConfig := some (configureOAuthClient env sdk.googleEndpoint
      "64013836047-c3nk16plvan7ll1erhu8ngsplsblm7r1.apps.googleusercontent.com"
      "DWJyCffv2mYZLF0cBJOvvinA") }
    let t := t ++ [.configureOAuthClient
      "64013836047-c3nk16plvan7ll1erhu8ngsplsblm7r1.apps.googleusercontent.com"
      "DWJyCffv2mYZLF0cBJOvvinA"]
    -- cookieStore := sessions.NewCookieStore(...); cookieStore.Options = ...
    let cookieStore := sdk.NewCookieStore [bytes "something-very-secret"]
    let cookieStore := { cookieStore with Options := some { HttpOnly := true } }
    let g := { g with SessionStore := some cookieStore }
    let t := t ++ [.NewCookieStore [bytes "something-very-secret"]]
    -- PubsubClient, err = configurePubsub(...)
    let p := configurePubsub g.DB sdk "ruihuang-bookshelf01"
    let g := { g with PubsubClient := p.1.1 }
    let err := p.1.2
    let t := t ++ [.configurePubsub "ruihuang-bookshelf01"] ++ p.2
    match err with
    | some e => { globals := g, trace := t ++ [.logFatal e], outcome := .fatal e }
    | none => { globals := g, trace := t, outcome := .returned }

/-! ## Concrete environments and collaborators -/

/-- An environment in which no variable is set. -/
def envLocal : Environ := fun _ => none

/-- An App Engine environment: `GAE_INSTANCE` and `OAUTH2_CALLBACK` are set. -/
def envGAE : Environ := fun key =>
  if key = "GAE_INSTANCE" then some "aef-default-1"
  else if key = "OAUTH2_CALLBACK" then some "https://example.appspot.com/oauth2callback"
  else none

/-- Collaborators that all succeed; the topic already exists. -/
def sdkOK : SDK where
  newMySQLDB := fun _ => (.mysqlDB 1, none)
  newDatastoreDB := fun _ => (.datastoreDB 2, none)
  datastoreNewClient := fun _ => .ok ⟨3⟩
  storageNewClient := fun _ => .ok ⟨4⟩
  pubsubNewClient := fun _ _ => .ok ⟨5⟩
  topicExists := fun _ _ => .ok true
  createTopic := fun _ _ => .ok ()
  NewCookieStore := fun keyPairs => { keyPairs := keyPairs, Options := some { Path := "/" } }
  googleEndpoint := { AuthURL := "https://accounts.google.com/o/oauth2/auth" }

/-- As `sdkOK`, but the MySQL connection fails. -/
def sdkDBFails : SDK :=
  { sdkOK with newMySQLDB := fun _ => (.nil, some (errors.New "mysql: could not get a connection")) }

/-- As `sdkOK`, but the storage client cannot be constructed. -/
def sdkStorageFails : SDK :=
  { sdkOK with storageNewClient := fun _ => .error (errors.New "storage: dialing failed") }

/-- As `sdkOK`, but the topic existence check fails. -/
def sdkExistsFails : SDK :=
  { sdkOK with topicExists := fun _ _ => .error (errors.New "rpc error: code = Unavailable") }

/-- As `sdkOK`, but the topic does not exist yet. -/
def sdkNoTopic : SDK :=
  { sdkOK with topicExists := fun _ _ => .ok false }

/-! ## Properties of `configurePubsub` -/

/-- C1: when the global DB holds a `*memoryDB`, for every project ID
configurePubsub returns a nil client together with the non-nil "Pub/Sub worker
doesn't work with the in-memory DB" error, as an ordinary return value, and it
has made no call at all by then: no Pub/Sub client is constructed, no topic is
checked or created, and nothing exits the process. -/
theorem configurePubsub_memoryDB (addr : Nat) (sdk : SDK) (projectID : String) :
    configurePubsub (.memoryDB addr) sdk projectID =
      ((none, some (errors.New ("Pub/Sub worker doesn't work with the in-memory DB " ++
        "(worker does not share its memory as the main app). Configure another database " ++
        "in bookshelf/config.go first (e.g. MySQL, Cloud Datastore, etc)"))), []) := by
  simp [configurePubsub, BookDatabase.isMemoryDB]

/-- C2: when DB is not the in-memory backend and the Pub/Sub client is
constructed, configurePubsub checks the existence of topic "fill-book-details"
exactly once; it calls CreateTopic, once and for that same topic, exactly when
the check succeeded and answered false; and when the check answers true the
trace holds the construction and the check only and the client is returned
with a nil error. -/
theorem configurePubsub_topic (DB : BookDatabase) (sdk : SDK) (projectID : String)
    (client : PubsubClient) (hDB : DB.isMemoryDB = false)
    (hC : sdk.pubsubNewClient projectID credentialsFile = .ok client) :
    (configurePubsub DB sdk projectID).2.filter Event.isTopicExists =
        [.topicExists client "fill-book-details"] ∧
      (configurePubsub DB sdk projectID).2.filter Event.isCreateTopic =
        (match sdk.topicExists client "fill-book-details" with
          | .ok false => [.createTopic client "fill-book-details"]
          | _ => []) ∧
      (sdk.topicExists client "fill-book-details" = .ok true →
        configurePubsub DB sdk projectID =
          ((some client, none),
            [.pubsubNewClient projectID credentialsFile,
              .topicExists client "fill-book-details"])) := by
  simp only [configurePubsub, hDB, hC, PubsubTopicID]
  cases hE : sdk.topicExists client "fill-book-details" with
  | error e => simp [Event.isTopicExists, Event.isCreateTopic]
  | ok b =>
    cases b with
    | true => simp [Event.isTopicExists, Event.isCreateTopic]
    | false =>
      cases hT : sdk.createTopic client "fill-book-details" <;>
        simp [Event.isTopicExists, Event.isCreateTopic]

/-- Witness for C2, on a MySQL backend where the topic already exists. -/
theorem configurePubsub_topic_witness :
    (configurePubsub (.mysqlDB 1) sdkOK "ruihuang-bookshelf01").2.filter Event.isTopicExists =
        [.topicExists ⟨5⟩ "fill-book-details"] ∧
      (configurePubsub (.mysqlDB 1) sdkOK "ruihuang-bookshelf01").2.filter Event.isCreateTopic
        = [] ∧
      configurePubsub (.mysqlDB 1) sdkOK "ruihuang-bookshelf01" =
        ((some ⟨5⟩, none),
          [.pubsubNewClient "ruihuang-bookshelf01" credentialsFile,
            .topicExists ⟨5⟩ "fill-book-details"]) :=
  have h := configurePubsub_topic (.mysqlDB 1) sdkOK "ruihuang-bookshelf01" ⟨5⟩ rfl rfl
  ⟨h.1, h.2.1, h.2.2 rfl⟩

/-- C10: for every project ID, DB value and outcome of the collaborators,
configurePubsub returns a client or an error and never both or neither (the
client is non-nil exactly when the error is nil). When the client construction,
the topic existence check or the topic creation fails, the result is a nil
client with the error of that call, and after a failed existence check no
CreateTopic call is made. -/
theorem configurePubsub_client_xor_error (DB : BookDatabase) (sdk : SDK) (projectID : String) :
    ((configurePubsub DB sdk projectID).1.1.isSome = true ↔
        (configurePubsub DB sdk projectID).1.2 = none) ∧
      (∀ e, DB.isMemoryDB = false →
        sdk.pubsubNewClient projectID credentialsFile = .error e →
        (configurePubsub DB sdk projectID).1 = (none, some e)) ∧
      (∀ client e, DB.isMemoryDB = false →
        sdk.pubsubNewClient projectID credentialsFile = .ok client →
        sdk.topicExists client PubsubTopicID = .error e →
        (configurePubsub DB sdk projectID).1 = (none, some e) ∧
          (configurePubsub DB sdk projectID).2.filter Event.isCreateTopic = []) ∧
      (∀ client e, DB.isMemoryDB = false →
        sdk.pubsubNewClient projectID credentialsFile = .ok client →
        sdk.topicExists client PubsubTopicID = .ok false →
        sdk.createTopic client PubsubTopicID = .error e →
        (configurePubsub DB sdk projectID).1 = (none, some e)) := by
  refine ⟨?_, ?_, ?_, ?_⟩
  · unfold configurePubsub
    cases DB.isMemoryDB with
    | true => simp
    | false =>
      cases hC : sdk.pubsubNewClient projectID credentialsFile with
      | error e => simp
      | ok client =>
        cases hE : sdk.topicExists client PubsubTopicID with
        | error e => simp [hE]
        | ok b =>
          cases b with
          | true => simp [hE]
          | false => cases hT : sdk.createTopic client PubsubTopicID <;> simp [hE, hT]
  · intro e hDB hC
    simp [configurePubsub, hDB, hC]
  · intro client e hDB hC hE
    simp [configurePubsub, hDB, hC, hE, Event.isCreateTopic]
  · intro client e hDB hC hE hT
    simp [configurePubsub, hDB, hC, hE, hT]

/-- Witness for C10, on a MySQL backend whose topic existence check fails. -/
theorem configurePubsub_client_xor_error_witness :
    (configurePubsub (.mysqlDB 1) sdkExistsFails "ruihuang-bookshelf01").1 =
        (none, some (errors.New "rpc error: code = Unavailable")) ∧
      (configurePubsub (.mysqlDB 1) sdkExistsFails "ruihuang-bookshelf01").2.filter
        Event.isCreateTopic = [] :=
  (configurePubsub_client_xor_error (.mysqlDB 1) sdkExistsFails "ruihuang-bookshelf01").2.2.1
    ⟨5⟩ (errors.New "rpc error: code = Unavailable") rfl rfl rfl

/-! ## Properties of `configureOAuthClient` -/

/-- C3: for every client ID, client secret and environment, the RedirectURL of
the config built by configureOAuthClient is the value of OAUTH2_CALLBACK when
that variable is set to a non-empty value, and the literal
"http://localhost:8080/oauth2callback" when it is unset or empty. -/
theorem configureOAuthClient_RedirectURL (env : Environ) (googleEndpoint : Endpoint)
    (clientID clientSecret : String) :
    (configureOAuthClient env googleEndpoint clientID clientSecret).RedirectURL =
      (match env "OAUTH2_CALLBACK" with
        | some value =>
          if value = "" then "http://localhost:8080/oauth2callback" else value
        | none => "http://localhost:8080/oauth2callback") := by
  unfold configureOAuthClient os.Getenv
  cases env "OAUTH2_CALLBACK" with
  | none => simp
  | some value => by_cases h : value = "" <;> simp [h]

/-- C9: configureOAuthClient is total and, for every client ID, client secret
and environment, its config has ClientID and ClientSecret equal to the
arguments, Scopes equal to the list "email", "profile", and the Google
endpoint; apart from RedirectURL the config is the same in every environment. -/
theorem configureOAuthClient_fields (env env2 : Environ) (googleEndpoint : Endpoint)
    (clientID clientSecret : String) :
    (configureOAuthClient env googleEndpoint clientID clientSecret).ClientID = clientID ∧
      (configureOAuthClient env googleEndpoint clientID clientSecret).ClientSecret =
        clientSecret ∧
      (configureOAuthClient env googleEndpoint clientID clientSecret).Scopes =
        ["email", "profile"] ∧
      (configureOAuthClient env googleEndpoint clientID clientSecret).Endpoint =
        googleEndpoint ∧
      { configureOAuthClient env googleEndpoint clientID clientSecret with RedirectURL := "" } =
        { configureOAuthClient env2 googleEndpoint clientID clientSecret with
          RedirectURL := "" } := by
  simp [configureOAuthClient]

/-! ## Properties of `configureCloudSQL` -/

/-- C5: for every cloudSQLConfig and environment, configureCloudSQL calls
newMySQLDB exactly once and returns that call's result unchanged. The config
it passes carries Username and Password through; when GAE_INSTANCE has a
non-empty value it has UnixSocket "/cloudsql/" followed by Instance with empty
Host and zero Port, and otherwise Host "localhost", Port 3306 and an empty
UnixSocket, in which case neither result nor calls depend on Instance. -/
theorem configureCloudSQL_spec (env : Environ) (sdk : SDK) (config : cloudSQLConfig) :
    (configureCloudSQL env sdk config).2.filter Event.isNewMySQLDB =
        [.newMySQLDB
          (if os.Getenv env "GAE_INSTANCE" ≠ "" then
            { Username := config.Username, Password := config.Password, Host := "", Port := 0,
              UnixSocket := "/cloudsql/" ++ config.Instance }
          else
            { Username := config.Username, Password := config.Password, Host := "localhost",
              Port := 3306, UnixSocket := "" })] ∧
      (configureCloudSQL env sdk config).1 =
        sdk.newMySQLDB
          (if os.Getenv env "GAE_INSTANCE" ≠ "" then
            { Username := config.Username, Password := config.Password, Host := "", Port := 0,
              UnixSocket := "/cloudsql/" ++ config.Instance }
          else
            { Username := config.Username, Password := config.Password, Host := "localhost",
              Port := 3306, UnixSocket := "" }) ∧
      (∀ instance2 : String, os.Getenv env "GAE_INSTANCE" = "" →
        configureCloudSQL env sdk { config with Instance := instance2 } =
          configureCloudSQL env sdk config) := by
  unfold configureCloudSQL
  by_cases h : os.Getenv env "GAE_INSTANCE" = "" <;> simp [h, Event.isNewMySQLDB]

/-- Witness for C5: locally, changing the instance name changes nothing. -/
theorem configureCloudSQL_spec_witness :
    configureCloudSQL envLocal sdkOK { cloudSQLLiteral with Instance := "other:region:db" } =
      configureCloudSQL envLocal sdkOK cloudSQLLiteral :=
  (configureCloudSQL_spec envLocal sdkOK cloudSQLLiteral).2.2 "other:region:db" rfl

/-! ## Properties of `init` -/

/-- The only call configureStorage makes is the storage client construction. -/
theorem configureStorage_trace (sdk : SDK) (bucketID : String) :
    (configureStorage sdk bucketID).2 = [.storageNewClient credentialsFile] := by
  unfold configureStorage
  split <;> rfl

/-- A class of calls that contains no Pub/Sub call is absent from the trace of
configurePubsub. -/
theorem configurePubsub_trace_filter (DB : BookDatabase) (sdk : SDK) (projectID : String)
    (f : Event → Bool) (h1 : ∀ p c, f (.pubsubNewClient p c) = false)
    (h2 : ∀ c i, f (.topicExists c i) = false) (h3 : ∀ c i, f (.createTopic c i) = false) :
    (configurePubsub DB sdk projectID).2.filter f = [] := by
  unfold configurePubsub
  repeat (first | split | simp [h1, h2, h3])

/-- The calls of configureCloudSQL: one or two prints, then newMySQLDB. -/
theorem configureCloudSQL_trace (env : Environ) (sdk : SDK) (config : cloudSQLConfig) :
    ∃ c : MySQLConfig,
      (configureCloudSQL env sdk config).1 = sdk.newMySQLDB c ∧
        (configureCloudSQL env sdk config).2.filter Event.isBackendConstruction =
          [.newMySQLDB c] ∧
        (configureCloudSQL env sdk config).2.filter Event.isAssignDB = [] := by
  unfold configureCloudSQL
  split <;> exact ⟨_, rfl, by simp [Event.isBackendConstruction], by simp [Event.isAssignDB]⟩

/-- C6: on every run of init in which the database step returns an error, init
ends in log.Fatal with that error right after assigning DB: the trace holds no
call of configureStorage, configureOAuthClient, the cookie store constructor or
configurePubsub (nor of anything they call), and StorageBucket, OAuthConfig,
SessionStore and PubsubClient are still nil. -/
theorem init_database_error_fatal (env : Environ) (sdk : SDK) (e : GoError)
    (h : (configureCloudSQL env sdk cloudSQLLiteral).1.2 = some e) :
    (init env sdk).outcome = .fatal e ∧
      (init env sdk).trace =
        [.printf "\nconfigureCloudSQL!\n", .configureCloudSQL cloudSQLLiteral] ++
          (configureCloudSQL env sdk cloudSQLLiteral).2 ++
          [.assignDB (configureCloudSQL env sdk cloudSQLLiteral).1.1, .logFatal e] ∧
      (init env sdk).trace.filter Event.isLaterStep = [] ∧
      (init env sdk).globals.StorageBucket = none ∧
      (init env sdk).globals.OAuthConfig = none ∧
      (init env sdk).globals.SessionStore = none ∧
      (init env sdk).globals.PubsubClient = none := by
  have hf : (configureCloudSQL env sdk cloudSQLLiteral).2.filter Event.isLaterStep = [] := by
    unfold configureCloudSQL
    split <;> simp [Event.isLaterStep]
  simp [init, h, hf, Event.isLaterStep]

/-- Witness for C6: locally, with a MySQL connection that fails. -/
theorem init_database_error_fatal_witness :
    (init envLocal sdkDBFails).outcome =
        .fatal (errors.New "mysql: could not get a connection") ∧
      (init envLocal sdkDBFails).trace.filter Event.isLaterStep = [] ∧
      (init envLocal sdkDBFails).globals.StorageBucket = none ∧
      (init envLocal sdkDBFails).globals.OAuthConfig = none ∧
      (init envLocal sdkDBFails).globals.SessionStore = none ∧
      (init envLocal sdkDBFails).globals.PubsubClient = none :=
  have h := init_database_error_fatal envLocal sdkDBFails
    (errors.New "mysql: could not get a connection") rfl
  ⟨h.1, h.2.2⟩

/-- C7: on every run of init the backend selection is exclusive. The only
backend calls in the trace are one call of configureCloudSQL and the one call
of newMySQLDB it makes; DB is assigned exactly once, with the result of that
call; and newMemoryDB, newMongoDB and configureDatastoreDB are never called. -/
theorem init_backend_exclusive (env : Environ) (sdk : SDK) :
    ∃ c : MySQLConfig,
      (init env sdk).trace.filter Event.isBackendConstruction =
          [.configureCloudSQL cloudSQLLiteral, .newMySQLDB c] ∧
        configureCloudSQL env sdk cloudSQLLiteral = (sdk.newMySQLDB c,
          (configureCloudSQL env sdk cloudSQLLiteral).2) ∧
        (init env sdk).trace.filter Event.isAssignDB = [.assignDB (sdk.newMySQLDB c).1] ∧
        (init env sdk).globals.DB = (sdk.newMySQLDB c).1 ∧
        Event.newMemoryDB ∉ (init env sdk).trace ∧
        (∀ addr, Event.newMongoDB addr ∉ (init env sdk).trace) ∧
        (∀ projectID, Event.configureDatastoreDB projectID ∉ (init env sdk).trace) := by
  obtain ⟨c, hr, hb, ha⟩ := configureCloudSQL_trace env sdk cloudSQLLiteral
  have hS := configureStorage_trace sdk "ruihuang-bookshelf-bucket01"
  have hPb := fun DB => configurePubsub_trace_filter DB sdk "ruihuang-bookshelf01"
    Event.isBackendConstruction (fun _ _ => rfl) (fun _ _ => rfl) (fun _ _ => rfl)
  have hPa := fun DB => configurePubsub_trace_filter DB sdk "ruihuang-bookshelf01"
    Event.isAssignDB (fun _ _ => rfl) (fun _ _ => rfl) (fun _ _ => rfl)
  have hfilter : (init env sdk).trace.filter Event.isBackendConstruction =
      [.configureCloudSQL cloudSQLLiteral, .newMySQLDB c] := by
    simp only [init]
    split <;> try split
    all_goals simp [hS, hb, hPb, Event.isBackendConstruction]
  have hmem : ∀ ev : Event, ev.isBackendConstruction = true → ev ∈ (init env sdk).trace →
      ev = .configureCloudSQL cloudSQLLiteral ∨ ev = .newMySQLDB c := by
    intro ev hev hin
    have : ev ∈ (init env sdk).trace.filter Event.isBackendConstruction :=
      List.mem_filter.mpr ⟨hin, hev⟩
    rw [hfilter] at this
    simpa using this
  refine ⟨c, hfilter, Prod.ext hr rfl, ?_, ?_, ?_, ?_, ?_⟩
  · simp only [init]
    split <;> try split
    all_goals simp [hS, ha, hPa, hr, Event.isAssignDB]
  · simp only [init]
    split <;> try split
    all_goals simp [hr]
  · intro hin
    cases hmem .newMemoryDB rfl hin <;> contradiction
  · intro addr hin
    cases hmem (.newMongoDB addr) rfl hin <;> contradiction
  · intro projectID hin
    cases hmem (.configureDatastoreDB projectID) rfl hin <;> contradiction

/-- C8: on every run of init that returns, whatever the environment and the
results of the database, storage, OAuth and Pub/Sub steps, SessionStore is the
cookie store built from the secret "something-very-secret" with its Options
replaced by an Options value whose only set field is HttpOnly = true. -/
theorem init_session_store_http_only (env : Environ) (sdk : SDK)
    (h : (init env sdk).outcome = .returned) :
    (init env sdk).globals.SessionStore =
        some { sdk.NewCookieStore [bytes "something-very-secret"] with
          Options := some { HttpOnly := true } } ∧
      ((init env sdk).globals.SessionStore.bind CookieStore.Options).map
        SessionOptions.HttpOnly = some true := by
  simp only [init] at h ⊢
  split at h
  · simp at h
  · split at h
    · simp at h
    · simp

/-- Witness for C8: a run on App Engine in which every step succeeds. -/
theorem init_session_store_http_only_witness :
    (init envGAE sdkOK).globals.SessionStore =
        some { keyPairs := [bytes "something-very-secret"],
               Options := some { HttpOnly := true } } ∧
      ((init envGAE sdkOK).globals.SessionStore.bind CookieStore.Options).map
        SessionOptions.HttpOnly = some true :=
  init_session_store_http_only envGAE sdkOK rfl

/-- C4, failing run: locally, with a database and a Pub/Sub service that work
and a storage client that cannot be constructed, configureStorage returns a
nil bucket and an error, yet init returns normally, never calls log.Fatal, and
leaves StorageBucket nil. -/
theorem init_storage_error_not_fatal :
    (configureCloudSQL envLocal sdkStorageFails cloudSQLLiteral).1.2 = none ∧
      (configureStorage sdkStorageFails "ruihuang-bookshelf-bucket01").1 =
        (none, some (errors.New "storage: dialing failed")) ∧
      (init envLocal sdkStorageFails).outcome = .returned ∧
      (init envLocal sdkStorageFails).trace.filter (fun ev => ev matches .logFatal _) = [] ∧
      (init envLocal sdkStorageFails).globals.StorageBucket = none := by
  refine ⟨rfl, rfl, rfl, ?_, rfl⟩
  simp [init, configureCloudSQL, configureStorage, configurePubsub, envLocal, sdkStorageFails,
    sdkOK, os.Getenv, BookDatabase.isMemoryDB]

end Bookshelf
